import Mathlib
/-!
Verification of the PoWER EV-charger equity code (`src/opt/ev_eval.py`,
`src/opt/ev_opt.py`) against its natural-language specification.

The equity metrics engine (`EVChargerEquityEvaluation.compute_disparity`)
works on numpy float arrays.  The embedding computes with exact rationals;
the IEEE behaviour that numpy exhibits on a zero denominator (a warning and
a NaN or an infinity, never an exception) is modelled by the value type
`PyRat` below, and the real-valued `theil_index` branch is modelled over ℝ.
-/

/-- Result of a numpy floating-point computation whose finite values the
code produces exactly: a finite rational, `+inf`, `-inf`, or `nan`. -/
inductive PyRat where
  | fin (q : ℚ)
  | inf
  | ninf
  | nan
deriving DecidableEq, Repr
/-- Result of `compute_disparity`: as `PyRat`, but finite values live in ℝ
because the `theil_index` branch takes real logarithms. -/
inductive PyFloat where
  | fin (x : ℝ)
  | inf
  | ninf
  | nan
/-- Interpret an exactly-rational float value as a real one. -/
noncomputable def PyRat.toPyFloat : PyRat → PyFloat
  | .fin q => .fin (q : ℝ)
  | .inf => .inf
  | .ninf => .ninf
  | .nan => .nan
/-- IEEE division of a finite value by a finite value (numpy `a / b` with
`b` possibly `+0.0`): finite quotient, or `nan` for `0/0`, or a signed
infinity for `±a/0`. -/
def pyDivQ (a b : ℚ) : PyRat :=
  if b ≠ 0 then .fin (a / b)
  else if a = 0 then .nan
  else if 0 < a then .inf
  else .ninf
/-- IEEE subtraction of a float value from a finite value `c` (used for the
outer `1 + 1/n - …` of the Gini branch). -/
def pyRsub (c : ℚ) : PyRat → PyRat
  | .fin x => .fin (c - x)
  | .inf => .ninf
  | .ninf => .inf
  | .nan => .nan
/-- np.mean of a list of exact values (the nonempty case; numpy yields NaN
on an empty array, which callers below handle before dividing). -/
def meanQ (l : List ℚ) : ℚ := l.sum / (l.length : ℚ)
/-- np.mean(np.abs(data - np.mean(data))): the `mean_abs_dev` value. -/
def madQ (l : List ℚ) : ℚ := meanQ (l.map (fun x => |x - meanQ l|))
/-- np.sort: ascending sort of the data. -/
def pySort (l : List ℚ) : List ℚ := l.insertionSort (· ≤ ·)
/-- np.sum((n + 1 - index) * data) with index = 1..n over sorted data `w`:
the rank-weighted sum of the Gini branch. -/
def giniRankSum (w : List ℚ) : ℚ :=
  ∑ k in Finset.range w.length, ((w.length : ℚ) + 1 - ((k : ℚ) + 1)) * w.getD k 0
/-- np.sum((2 * index - n - 1) * data) with index = 1..n over sorted data
`w`: the rank-weighted sum of the `lorenz_curve` branch. -/
def lorenzRankSum (w : List ℚ) : ℚ :=
  ∑ k in Finset.range w.length, (2 * ((k : ℚ) + 1) - (w.length : ℚ) - 1) * w.getD k 0
/-- np.sum(data * np.log(data / np.mean(data))): the `theil_index` branch.
`Real.log` is zero on nonpositive arguments where numpy would emit NaN; the
development only ever evaluates this branch on strictly positive data,
where the model is exact. -/
noncomputable def theilIndex (data : List ℚ) : ℝ :=
  (data.map (fun (v : ℚ) => (v : ℝ) * Real.log ((v : ℝ) / (meanQ data : ℝ)))).sum
/-- `EVChargerEquityEvaluation.compute_disparity(disparity_index, data)`.
Branches and formulas follow `src/opt/ev_eval.py` lines 143-171.  The Gini
branch evaluates `1 + (1/n)` with a Python integer `n`, so an empty array
raises ZeroDivisionError there; every other degenerate denominator is a
numpy float division and yields NaN or an infinity without raising. -/
noncomputable def computeDisparity (disparity_index : String) (data : List ℚ) :
    Except String PyFloat :=
  if disparity_index = "mean_abs_dev" then
    .ok (if data = [] then .nan else (PyRat.fin (madQ data)).toPyFloat)
  else if disparity_index = "relative_mean_abs_dev" then
    .ok (if data = [] then .nan else (pyDivQ (madQ data) (meanQ data)).toPyFloat)
  else if disparity_index = "gini_coefficient" then
    if data = [] then .error "ZeroDivisionError: division by zero"
    else
      .ok ((pyRsub (1 + 1 / ((pySort data).length : ℚ))
        (pyDivQ ((2 / ((pySort data).length : ℚ)) * giniRankSum (pySort data))
          (pySort data).sum)).toPyFloat)
  else if disparity_index = "lorenz_curve" then
    .ok ((pyDivQ (lorenzRankSum (pySort data))
      (((pySort data).length : ℚ) * (pySort data).sum)).toPyFloat)
  else if disparity_index = "theil_index" then
    .ok (.fin (theilIndex data))
  else
    .error "Invalid disparity index"
/-!
The Charger Equity Evaluator (`EVChargerEquityEvaluation`, `ev_eval.py`).
A `Zone` is one row of the evaluator's zone table `df1`;
`vkt_flow_out_km` stands for the row sum `df3.sum(axis=1)` computed in
`__init__`.  Group labels are ℕ codes for the categorical values; pandas
`groupby` iterates groups with sorted keys, so `groupKeys` sorts the
distinct labels ascending.  Ratio columns are exact rational divisions
(all denominators of the claims below are nonzero).
-/

structure Zone where
  char_num_home : ℚ
  char_num_not_home : ℚ
  char_capacity_home : ℚ
  char_capacity_not_home : ℚ
  popu : ℚ
  veh_num : ℚ
  work_popu : ℚ
  vkt_flow_out_km : ℚ
  income_level : ℕ
  mud_level : ℕ
  employment_level : ℕ
  major_ethnicity : ℕ
deriving DecidableEq, Repr
/-- df1["total_char_num"] = char_num_not_home + char_num_home. -/
def totalCharNum (z : Zone) : ℚ := z.char_num_not_home + z.char_num_home
/-- df1["total_char_capacity"] = char_capacity_not_home + char_capacity_home. -/
def totalCharCapacity (z : Zone) : ℚ := z.char_capacity_not_home + z.char_capacity_home
/-- df1["char_per_capita"]. -/
def charPerCapita (z : Zone) : ℚ := totalCharNum z / z.popu
/-- df1["char_per_veh"]. -/
def charPerVeh (z : Zone) : ℚ := totalCharNum z / z.veh_num
/-- df1["char_capacity_per_capita"]. -/
def charCapacityPerCapita (z : Zone) : ℚ := totalCharCapacity z / z.popu
/-- df1["char_capacity_per_car"]. -/
def charCapacityPerCar (z : Zone) : ℚ := totalCharCapacity z / z.veh_num
/-- df1["char_per_VKT_out"]. -/
def charPerVKTOut (z : Zone) : ℚ := totalCharNum z / z.vkt_flow_out_km
/-- df1["char_capacity_per_VKT_out"]. -/
def charCapacityPerVKTOut (z : Zone) : ℚ := totalCharCapacity z / z.vkt_flow_out_km
/-- Column selection df1[demographic_group]; only applied after the
argument has been validated against the four recognised names. -/
def demoColumn (g : String) (z : Zone) : ℕ :=
  if g = "income_level" then z.income_level
  else if g = "mud_level" then z.mud_level
  else if g = "employment_level" then z.employment_level
  else z.major_ethnicity
/-- The distinct group labels of a table, ascending (pandas groupby key
order). -/
def groupKeys (t : List Zone) (g : String) : List ℕ :=
  ((t.map (demoColumn g)).dedup).insertionSort (· ≤ ·)
/-- The rows of one group: df1[df1[g] == k]. -/
def groupZones (t : List Zone) (g : String) (k : ℕ) : List Zone :=
  t.filter (fun z => demoColumn g z == k)
/-- One branch of `compute_equity`: per-group intra disparity over the
zone-level ratio column, and inter disparity over the group ratios formed
by groupby-summing the numerator and denominator columns and dividing. -/
noncomputable def equityBranch (t : List Zone) (g disp : String)
    (ratioCol numCol denCol : Zone → ℚ) : Except String (PyFloat × List PyFloat) := do
  let intra ← (groupKeys t g).mapM
    (fun k => computeDisparity disp ((groupZones t g k).map ratioCol))
  let inter ← computeDisparity disp ((groupKeys t g).map (fun k =>
    ((groupZones t g k).map numCol).sum / ((groupZones t g k).map denCol).sum))
  pure (inter, intra)
/-- `EVChargerEquityEvaluation.compute_equity` (`ev_eval.py` lines 40-136):
three membership validations, then one branch per equity indicator. -/
noncomputable def computeEquity (t : List Zone)
    (equity_indicator demographic_group disparity_index : String) :
    Except String (PyFloat × List PyFloat) :=
  if demographic_group ∉ (["income_level", "mud_level", "employment_level",
      "major_ethnicity"] : List String) then
    .error "Invalid demongraphic group"
  else if equity_indicator ∉ (["char_per_capita", "char_capacity_per_capita",
      "char_per_veh", "char_capacity_per_car", "char_per_VKT_out",
      "char_capacity_per_VKT_out"] : List String) then
    .error "Invalid equity indicator"
  else if disparity_index ∉ (["mean_abs_dev", "relative_mean_abs_dev",
      "gini_coefficient", "lorenz_curve", "theil_index"] : List String) then
    .error "Invalid disparity index"
  else if equity_indicator = "char_per_capita" then
    equityBranch t demographic_group disparity_index charPerCapita totalCharNum
      (fun z => z.popu)
  else if equity_indicator = "char_capacity_per_capita" then
    equityBranch t demographic_group disparity_index charCapacityPerCapita totalCharCapacity
      (fun z => z.popu)
  else if equity_indicator = "char_per_veh" then
    equityBranch t demographic_group disparity_index charPerVeh totalCharNum
      (fun z => z.veh_num)
  else if equity_indicator = "char_capacity_per_car" then
    equityBranch t demographic_group disparity_index charCapacityPerCar totalCharCapacity
      (fun z => z.veh_num)
  else if equity_indicator = "char_per_VKT_out" then
    equityBranch t demographic_group disparity_index charPerVKTOut totalCharNum
      (fun z => z.vkt_flow_out_km)
  else
    equityBranch t demographic_group disparity_index charCapacityPerVKTOut totalCharCapacity
      (fun z => z.vkt_flow_out_km)
/-- The numerator column the six branches groupby-sum for the inter-group
ratio (count-based indicators sum `total_char_num`, capacity-based ones
`total_char_capacity`). -/
def indicatorNum (ind : String) (z : Zone) : ℚ :=
  if ind = "char_per_capita" ∨ ind = "char_per_veh" ∨ ind = "char_per_VKT_out" then
    totalCharNum z
  else
    totalCharCapacity z
/-- The denominator column the six branches groupby-sum for the
inter-group ratio. -/
def indicatorDen (ind : String) (z : Zone) : ℚ :=
  if ind = "char_per_capita" ∨ ind = "char_capacity_per_capita" then z.popu
  else if ind = "char_per_veh" ∨ ind = "char_capacity_per_car" then z.veh_num
  else z.vkt_flow_out_km
/-- The per-zone ratio column of each indicator. -/
def indicatorZoneRatio (ind : String) (z : Zone) : ℚ :=
  if ind = "char_per_capita" then charPerCapita z
  else if ind = "char_capacity_per_capita" then charCapacityPerCapita z
  else if ind = "char_per_veh" then charPerVeh z
  else if ind = "char_capacity_per_car" then charCapacityPerCar z
  else if ind = "char_per_VKT_out" then charPerVKTOut z
  else charCapacityPerVKTOut z
/-- Modelled from the spec: the aggregation the spec rules out — taking
each group's ratio as the MEAN of its per-zone ratios instead of the sum
of numerators over the sum of denominators.  Defined only to be compared
against `computeEquity`'s actual inter-group ratios. -/
def interRatiosMeanOfZoneRatios (t : List Zone) (g ind : String) : List ℚ :=
  (groupKeys t g).map (fun k => meanQ ((groupZones t g k).map (indicatorZoneRatio ind)))
/-- First zone of the C2 example table: one charger, population 1, low
income group (label 1). -/
def c2zone1 : Zone :=
  { char_num_home := 1, char_num_not_home := 0, char_capacity_home := 0,
    char_capacity_not_home := 0, popu := 1, veh_num := 1, work_popu := 1,
    vkt_flow_out_km := 1, income_level := 1, mud_level := 0,
    employment_level := 0, major_ethnicity := 0 }
/-- Second zone: no chargers, population 3, low income group. -/
def c2zone2 : Zone :=
  { char_num_home := 0, char_num_not_home := 0, char_capacity_home := 0,
    char_capacity_not_home := 0, popu := 3, veh_num := 1, work_popu := 1,
    vkt_flow_out_km := 1, income_level := 1, mud_level := 0,
    employment_level := 0, major_ethnicity := 0 }
/-- Third zone: one charger, population 2, high income group (label 2). -/
def c2zone3 : Zone :=
  { char_num_home := 1, char_num_not_home := 0, char_capacity_home := 0,
    char_capacity_not_home := 0, popu := 2, veh_num := 1, work_popu := 1,
    vkt_flow_out_km := 1, income_level := 2, mud_level := 0,
    employment_level := 0, major_ethnicity := 0 }
/-- Fourth zone: one charger, population 2, high income group. -/
def c2zone4 : Zone :=
  { char_num_home := 1, char_num_not_home := 0, char_capacity_home := 0,
    char_capacity_not_home := 0, popu := 2, veh_num := 1, work_popu := 1,
    vkt_flow_out_km := 1, income_level := 2, mud_level := 0,
    employment_level := 0, major_ethnicity := 0 }
/-- The asymmetric C2 example table: two groups of two zones with unequal
per-zone denominators (populations 1, 3, 2, 2). -/
def c2Table : List Zone := [c2zone1, c2zone2, c2zone3, c2zone4]
/-!
The Equity-Optimization Model Builder (`EV_Opt`, `ev_opt.py`).  Zone rows
are indexed by `Fin n` in dataframe order; `flow i j` is the commute-flow
matrix entry `n_trip_ij[i, j]` (residence row `i`, workplace column `j`).
`charEqExpr` is the right-hand side of the `char_capacity_each_ct`
equality constraints (lines 113-122), and `Feasible` collects the model's
constraints on the core variables `x`, `char_eq`, `xi`: default lower
bounds of the `addVars` calls (lines 104-106), the two budget constraints
`char_cap_l1`/`char_cap_l2` (lines 109-110), the equivalent-capacity
equalities, and the `compute_xi_val` equalities (lines 136-157).  The
remaining model content (group values, disparity auxiliaries, objective)
only introduces further variables bounded in terms of these and does not
constrain `x` further. -/

def charEqExpr (n : ℕ) (totalCap : Fin n → ℚ) (flow : Fin n → Fin n → ℚ)
    (workPopu : Fin n → ℚ) (ef : ℚ) (x : Fin n → ℚ) (i : Fin n) : ℚ :=
  totalCap i + (∑ j, x j * flow i j / workPopu j) * (1 - ef)
/-- An assignment of the three per-zone variable blocks created by
`optimization` (lines 104-106). -/
structure OptSolution (n : ℕ) where
  x : Fin n → ℚ
  char_eq : Fin n → ℚ
  xi : Fin n → ℚ
/-- The `compute_xi_val` equality constraints for the chosen equity
indicator; an unsupported indicator raises, so no model (and no feasible
point) exists for it. -/
def xiConstraint (n : ℕ) (data : Fin n → Zone) (ind : String) (s : OptSolution n) : Prop :=
  if ind = "char_capacity_per_capita" then
    ∀ i, s.xi i = s.char_eq i / (data i).popu
  else if ind = "char_capacity_per_car" then
    ∀ i, s.xi i = s.char_eq i / (data i).veh_num
  else if ind = "char_capacity_per_VKT_out" then
    ∀ i, s.xi i = s.char_eq i / (data i).vkt_flow_out_km
  else
    False
/-- Feasibility of an assignment for the model built by
`EV_Opt.optimization`: both budget constraints use the one numeric value
`maxAdd` = kwargs["max_add_capacity"], exactly as lines 109-110 do. -/
def Feasible (n : ℕ) (data : Fin n → Zone) (flow : Fin n → Fin n → ℚ)
    (ef maxAdd : ℚ) (ind : String) (s : OptSolution n) : Prop :=
  (∀ i, 0 ≤ s.x i) ∧ (∀ i, 0 ≤ s.char_eq i) ∧ (∀ i, 0 ≤ s.xi i) ∧
  (∀ i, s.x i ≤ maxAdd) ∧ ((∑ i, s.x i) ≤ maxAdd) ∧
  (∀ i, s.char_eq i = charEqExpr n (fun j => totalCharCapacity (data j)) flow
    (fun j => (data j).work_popu) ef s.x i) ∧
  xiConstraint n data ind s
/-!
The Solve Orchestrator (`EV_Opt.solve`, `ev_opt.py` lines 350-403) and
its caller (`EV_Opt.optimization`, line 132).  After `m.optimize`, the
infeasible branch computes an IIS, writes `model_2025.ilp` and returns the
single value `None`; every other modelled outcome returns the pair
`(solution0, solution1)`.  Back in `optimization`, the call site is the
tuple unpacking `sol0, sol1 = self.solve(...)` — unpacking `None` raises
`TypeError` in Python. -/

inductive GrbStatus where
  | optimal
  | infeasible
  | timeLimit
deriving DecidableEq, Repr
/-- `EV_Opt.solve` after the optimize call: the Boolean records whether
the IIS report was computed and persisted, the option is the returned
value (`none` models Python's `return None`). -/
def solveReturn {α : Type} (status : GrbStatus) (sol : α) : Bool × Option α :=
  match status with
  | .infeasible => (true, none)
  | _ => (false, some sol)
/-- The call site `sol0, sol1 = self.solve(...)` in `EV_Opt.optimization`
(line 132): tuple-unpacking the returned value, which raises `TypeError`
when the value is `None`. -/
def optimizationUnpack {α β : Type} (r : Option (α × β)) : Except String (α × β) :=
  match r with
  | none => .error "TypeError: cannot unpack non-iterable NoneType object"
  | some p => .ok p
/-!
Build trace of `EV_Opt.optimization`.  For the claims about WHEN argument
validation happens (C8) and HOW invalid arguments fail (C9), the relevant
observable is the sequence of Gurobi `addVar(s)`/`addConstr(s)` calls
performed before a Python exception is raised.  `GrbModel` counts the
variables and constraints added so far; each method of `EV_Opt` is
modelled as a step that extends those counts in source order or stops
with the exception the source raises, carrying the model state at the
moment of the raise. -/

structure GrbModel where
  nVars : ℕ
  nConstrs : ℕ
deriving DecidableEq, Repr
def GrbModel.addVars (m : GrbModel) (k : ℕ) : GrbModel :=
  { m with nVars := m.nVars + k }
def GrbModel.addConstrs (m : GrbModel) (k : ℕ) : GrbModel :=
  { m with nConstrs := m.nConstrs + k }
/-- The Python exceptions the builder can raise. -/
inductive PyErr where
  | valueError (msg : String)
  | assertionError
deriving DecidableEq, Repr
/-- df1[demographic_group].unique() in row order, as
`compute_group_val`/`get_within_disparity_objective` build
`demo_category_list`. -/
def uniqueLabels (n : ℕ) (data : Fin n → Zone) (grp : String) : List ℕ :=
  (List.ofFn (fun i => demoColumn grp (data i))).dedup
/-- The sizes of the demographic groups, in `uniqueLabels` order. -/
def groupSizes (n : ℕ) (data : Fin n → Zone) (grp : String) : List ℕ :=
  (uniqueLabels n data grp).map
    (fun k => (List.ofFn (fun i => demoColumn grp (data i))).count k)
/-- `compute_xi_val` (lines 136-157): one equality constraint per zone for
a supported capacity indicator, ValueError otherwise (nothing added). -/
def computeXiValTrace (n : ℕ) (ind : String) (m : GrbModel) :
    Except (GrbModel × PyErr) GrbModel :=
  if ind = "char_capacity_per_capita" ∨ ind = "char_capacity_per_car" ∨
      ind = "char_capacity_per_VKT_out" then
    .ok (m.addConstrs n)
  else
    .error (m, .valueError "Invalid equity indicator")
/-- `compute_group_val` (lines 159-201): group check first, then the
`val` variables (one per group) are added BEFORE the indicator dispatch,
then one equality constraint per group. -/
def computeGroupValTrace (nGroup : ℕ) (grp ind : String) (m : GrbModel) :
    Except (GrbModel × PyErr) GrbModel :=
  if grp ∈ (["income_level", "mud_level", "employment_level",
      "major_ethnicity"] : List String) then
    if ind = "char_capacity_per_capita" ∨ ind = "char_capacity_per_car" ∨
        ind = "char_capacity_per_VKT_out" then
      .ok ((m.addVars nGroup).addConstrs nGroup)
    else
      .error (m.addVars nGroup, .valueError "Invalid equity indicator")
  else
    .error (m, .valueError "Invalid demongraphic group")
/-- `disparity_fn` (lines 245-259) applied to a vector of length `len`:
variance adds nothing (a pure expression); coeff_of_var adds 3 auxiliary
variables and 3 constraints (two equalities and one power constraint);
mean_abs_dev adds `len` auxiliaries and `2·len` bounds; its relative
variant 2 more of each; the Gini linearisation `len²+1` variables and
`2·len²+1` constraints.  Any other index raises ValueError("Invalid
method") with nothing added. -/
def disparityFnTrace (len : ℕ) (disp : String) (m : GrbModel) :
    Except (GrbModel × PyErr) GrbModel :=
  if disp = "var" then .ok m
  else if disp = "coeff_of_var" then .ok ((m.addVars 3).addConstrs 3)
  else if disp = "mean_abs_dev" then .ok ((m.addVars len).addConstrs (2 * len))
  else if disp = "relative_mean_abs_dev" then
    .ok ((m.addVars (len + 2)).addConstrs (2 * len + 2))
  else if disp = "gini_coefficient" then
    .ok ((m.addVars (len * len + 1)).addConstrs (2 * len * len + 1))
  else .error (m, .valueError "Invalid method")
/-- `get_within_disparity_objective` (lines 223-243): group check, the
`within_group` variables (one per group), then per group the disparity
linearisation on that group's zones plus one equality constraint. -/
def withinDisparityTrace (grp disp : String) (sizes : List ℕ) (m : GrbModel) :
    Except (GrbModel × PyErr) GrbModel :=
  if grp ∈ (["income_level", "mud_level", "employment_level",
      "major_ethnicity"] : List String) then
    sizes.foldlM
      (fun mm s => (disparityFnTrace s disp mm) >>= fun m2 => pure (m2.addConstrs 1))
      (m.addVars sizes.length)
  else
    .error (m, .valueError "Invalid demongraphic group")
/-- `get_equity_objective` (lines 203-221): the `obj_between`/`obj_within`
variables, the between-group disparity linearisation plus its defining
constraint, the within-group term plus its constraint, and ONLY THEN the
two asserts on kwargs["multi_obj_bet_weight"] (lines 215-216) —
`flag` models `isinstance(multi_obj_bet_weight, float)`. -/
def getEquityObjectiveTrace (nGroup : ℕ) (sizes : List ℕ) (grp disp : String)
    (flag : Bool) (w : ℚ) (m : GrbModel) : Except (GrbModel × PyErr) GrbModel :=
  (disparityFnTrace nGroup disp (m.addVars 2)) >>= fun m1 =>
  (withinDisparityTrace grp disp sizes (m1.addConstrs 1)) >>= fun m3 =>
  if flag ∧ 0 ≤ w ∧ w ≤ 1 then pure (m3.addConstrs 1)
  else .error (m3.addConstrs 1, .assertionError)
/-- The model state after lines 99-122 of `optimization`: the three
per-zone variable blocks `x`, `char_eq`, `xi`, then the budget constraints
`char_cap_l1` (n of them) and `char_cap_l2` (one), then the
`char_capacity_each_ct` equalities (n). -/
def initialModelTrace (n : ℕ) : GrbModel :=
  ((((((GrbModel.mk 0 0).addVars n).addVars n).addVars n).addConstrs n).addConstrs
    1).addConstrs n
/-- `EV_Opt.optimization` (lines 79-132) up to the solve call: the
sequence of model-building steps in source order, stopping at the first
raised exception. -/
def buildOptimization (n : ℕ) (data : Fin n → Zone) (ind grp disp : String)
    (flag : Bool) (w : ℚ) : Except (GrbModel × PyErr) GrbModel :=
  (computeXiValTrace n ind (initialModelTrace n)) >>= fun m4 =>
  (computeGroupValTrace (uniqueLabels n data grp).length grp ind m4) >>= fun m5 =>
  getEquityObjectiveTrace (uniqueLabels n data grp).length (groupSizes n data grp)
    grp disp flag w m5
/-- Unfolding of the `mean_abs_dev` branch on nonempty data. -/
lemma computeDisparity_mad (data : List ℚ) (h : data ≠ []) :
    computeDisparity "mean_abs_dev" data = .ok (.fin ((madQ data : ℚ) : ℝ)) := by
  rw [computeDisparity]
  simp [h, PyRat.toPyFloat]
/-- Unfolding of the `relative_mean_abs_dev` branch on nonempty data. -/
lemma computeDisparity_rmad (data : List ℚ) (h : data ≠ []) :
    computeDisparity "relative_mean_abs_dev" data =
      .ok ((pyDivQ (madQ data) (meanQ data)).toPyFloat) := by
  rw [computeDisparity]
  simp [h]
/-- Unfolding of the `gini_coefficient` branch on nonempty data. -/
lemma computeDisparity_gini (data : List ℚ) (h : data ≠ []) :
    computeDisparity "gini_coefficient" data =
      .ok ((pyRsub (1 + 1 / ((pySort data).length : ℚ))
        (pyDivQ ((2 / ((pySort data).length : ℚ)) * giniRankSum (pySort data))
          (pySort data).sum)).toPyFloat) := by
  rw [computeDisparity]
  simp [h]
/-- Unfolding of the `lorenz_curve` branch. -/
lemma computeDisparity_lorenz (data : List ℚ) :
    computeDisparity "lorenz_curve" data =
      .ok ((pyDivQ (lorenzRankSum (pySort data))
        (((pySort data).length : ℚ) * (pySort data).sum)).toPyFloat) := by
  rw [computeDisparity]
  simp
/-- Unfolding of the `theil_index` branch. -/
lemma computeDisparity_theil (data : List ℚ) :
    computeDisparity "theil_index" data = .ok (.fin (theilIndex data)) := by
  rw [computeDisparity]
  simp
/-- The sorted data is a permutation of the input, so its sum and length
agree with the input's. -/
lemma pySort_perm (l : List ℚ) : (pySort l).Perm l := List.perm_insertionSort _ l
lemma pySort_sum (l : List ℚ) : (pySort l).sum = l.sum := (pySort_perm l).sum_eq
lemma pySort_length (l : List ℚ) : (pySort l).length = l.length := (pySort_perm l).length_eq
/-- A list's sum, written through positional access as numpy's vectorised
expressions do. -/
lemma sum_getD_range (l : List ℚ) :
    ∑ k in Finset.range l.length, l.getD k 0 = l.sum := by
  induction l with
  | nil => simp
  | cons a t ih =>
    rw [List.length_cons, Finset.sum_range_succ']
    simp only [List.getD_cons_succ, List.getD_cons_zero, List.sum_cons, ih, add_comm]
/-- The two rank-weighted sums are linearly related:
`Σ(2·rank − n − 1)·wᵢ = (n+1)·Σw − 2·Σ(n+1−rank)·wᵢ`. -/
lemma lorenzRankSum_eq (w : List ℚ) :
    lorenzRankSum w = ((w.length : ℚ) + 1) * w.sum - 2 * giniRankSum w := by
  unfold lorenzRankSum giniRankSum
  rw [← sum_getD_range w, Finset.mul_sum, Finset.mul_sum, ← Finset.sum_sub_distrib]
  refine Finset.sum_congr rfl fun k _ => ?_
  ring
/-- The Gini rank-weighted sum, re-indexed over ranks 1..n as the spec
writes it. -/
lemma giniRankSum_eq_Icc (w : List ℚ) :
    giniRankSum w =
      ∑ i in Finset.Icc 1 w.length, ((w.length : ℚ) + 1 - (i : ℚ)) * w.getD (i - 1) 0 := by
  rw [← Nat.Ico_succ_right, Finset.sum_Ico_eq_sum_range, Nat.succ_sub_one]
  unfold giniRankSum
  refine Finset.sum_congr rfl fun k _ => ?_
  have h1 : 1 + k - 1 = k := by omega
  rw [h1]
  congr 1
  push_cast
  ring
/-- On every vector with nonzero sum the `lorenz_curve` and
`gini_coefficient` branches return the same value: substituting
`lorenzRankSum = (n+1)·T − 2·giniRankSum` makes the two quotients equal. -/
lemma gini_lorenz_agree (v : List ℚ) (h3 : 0 < v.sum) :
    computeDisparity "lorenz_curve" v = computeDisparity "gini_coefficient" v := by
  have h1 : v ≠ [] := by rintro rfl; simp at h3
  have hT : (pySort v).sum ≠ 0 := by rw [pySort_sum]; exact ne_of_gt h3
  have hn : (pySort v).length ≠ 0 := fun h =>
    h1 (List.length_eq_zero.mp ((pySort_length v) ▸ h))
  have hnQ : ((pySort v).length : ℚ) ≠ 0 := Nat.cast_ne_zero.mpr hn
  have hnT : ((pySort v).length : ℚ) * (pySort v).sum ≠ 0 := mul_ne_zero hnQ hT
  rw [computeDisparity_gini v h1, computeDisparity_lorenz v]
  unfold pyDivQ
  rw [if_pos hnT, if_pos hT]
  simp only [pyRsub, PyRat.toPyFloat]
  have key : lorenzRankSum (pySort v) / (((pySort v).length : ℚ) * (pySort v).sum) =
      1 + 1 / ((pySort v).length : ℚ) -
        2 / ((pySort v).length : ℚ) * giniRankSum (pySort v) / (pySort v).sum := by
    rw [lorenzRankSum_eq]
    field_simp
    ring
  rw [key]
/-- C1: for every nonempty sequence `v` of nonnegative rationals with
positive sum, `compute_disparity("gini_coefficient", v)` returns
`1 + 1/n − (2/n)·Σ_{i=1..n}(n+1−i)·wᵢ / Σw`, where `w` is `v` sorted
ascending and `n = |v|`. -/
theorem C1_gini_coefficient_formula (v : List ℚ) (h1 : v ≠ [])
    (h2 : ∀ x ∈ v, 0 ≤ x) (h3 : 0 < v.sum) :
    computeDisparity "gini_coefficient" v =
      .ok (.fin ((1 + 1 / (v.length : ℚ) - (2 / (v.length : ℚ)) *
        (∑ i in Finset.Icc 1 v.length,
          ((v.length : ℚ) + 1 - (i : ℚ)) * (pySort v).getD (i - 1) 0) /
        (pySort v).sum : ℚ) : ℝ)) := by
  have hT : (pySort v).sum ≠ 0 := by rw [pySort_sum]; exact ne_of_gt h3
  rw [computeDisparity_gini v h1]
  unfold pyDivQ
  rw [if_pos hT]
  simp only [pyRsub, PyRat.toPyFloat, pySort_length]
  congr 2
  rw [giniRankSum_eq_Icc, pySort_length]
/-- C1 witness: the theorem applied at `v = [1, 2]`, whose Gini value is
`1/6`. -/
theorem C1_gini_coefficient_formula_witness :
    computeDisparity "gini_coefficient" [1, 2] =
      .ok (.fin ((1 + 1 / (([1, 2] : List ℚ).length : ℚ) - (2 / (([1, 2] : List ℚ).length : ℚ)) *
        (∑ i in Finset.Icc 1 ([1, 2] : List ℚ).length,
          ((([1, 2] : List ℚ).length : ℚ) + 1 - (i : ℚ)) * (pySort [1, 2]).getD (i - 1) 0) /
        (pySort [1, 2]).sum : ℚ) : ℝ)) :=
  C1_gini_coefficient_formula [1, 2] (by simp) (by decide)
    (by norm_num [List.sum_cons, List.sum_nil])
/-- C10 counterexample to the claim as stated: there is NO nonnegative
vector with positive sum on which the two statistics differ — they agree
everywhere on the claimed domain. -/
theorem C10_no_input_distinguishes_lorenz_from_gini :
    ¬ ∃ v : List ℚ, (∀ x ∈ v, 0 ≤ x) ∧ 0 < v.sum ∧
      computeDisparity "lorenz_curve" v ≠ computeDisparity "gini_coefficient" v := by
  rintro ⟨v, -, hpos, hne⟩
  exact hne (gini_lorenz_agree v hpos)
/-- C10 amended: on every nonnegative input vector with positive sum,
`compute_disparity("lorenz_curve", v)` and
`compute_disparity("gini_coefficient", v)` return the SAME value — the two
formulas are algebraically identical, so the statistics are
interchangeable there and no sign convention separates them. -/
theorem C10_lorenz_equals_gini (v : List ℚ) (h2 : ∀ x ∈ v, 0 ≤ x) (h3 : 0 < v.sum) :
    computeDisparity "lorenz_curve" v = computeDisparity "gini_coefficient" v :=
  gini_lorenz_agree v h3
/-- C10 witness: the amended theorem applied at `v = [1, 2]`. -/
theorem C10_lorenz_equals_gini_witness :
    computeDisparity "lorenz_curve" [1, 2] = computeDisparity "gini_coefficient" [1, 2] :=
  C10_lorenz_equals_gini [1, 2] (by decide) (by norm_num [List.sum_cons, List.sum_nil])
lemma sum_range_cast (n : ℕ) : (∑ k in Finset.range n, (k : ℚ)) = n * (n - 1) / 2 := by
  induction n with
  | zero => simp
  | succ m ih =>
    rw [Finset.sum_range_succ, ih]
    push_cast
    ring
/-- The sum of a list all of whose elements equal `c`. -/
lemma list_sum_const (l : List ℚ) (c : ℚ) (h : ∀ x ∈ l, x = c) :
    l.sum = (l.length : ℚ) * c := by
  induction l with
  | nil => simp
  | cons a t ih =>
    rw [List.sum_cons, List.length_cons, ih (fun x hx => h x (List.mem_cons_of_mem a hx)),
      h a (List.mem_cons_self a t)]
    push_cast
    ring
lemma meanQ_const (l : List ℚ) (c : ℚ) (h1 : l ≠ []) (h : ∀ x ∈ l, x = c) :
    meanQ l = c := by
  have hn : (l.length : ℚ) ≠ 0 := by
    simpa using fun h0 => h1 (List.length_eq_zero.mp h0)
  rw [meanQ, list_sum_const l c h, mul_comm, mul_div_assoc, div_self hn, mul_one]
lemma madQ_const (l : List ℚ) (c : ℚ) (h1 : l ≠ []) (h : ∀ x ∈ l, x = c) :
    madQ l = 0 := by
  have hz : ∀ y ∈ l.map (fun x => |x - meanQ l|), y = 0 := by
    intro y hy
    obtain ⟨z, hz, rfl⟩ := List.mem_map.mp hy
    rw [h z hz, meanQ_const l c h1 h, sub_self, abs_zero]
  rw [madQ, meanQ, list_sum_const _ 0 hz, mul_zero, zero_div]
lemma sum_range_descending (n : ℕ) :
    (∑ k in Finset.range n, ((n : ℚ) - (k : ℚ))) = n * (n + 1) / 2 := by
  rw [Finset.sum_sub_distrib, Finset.sum_const, Finset.card_range, nsmul_eq_mul,
    sum_range_cast]
  ring
lemma giniRankSum_const (w : List ℚ) (c : ℚ) (h : ∀ x ∈ w, x = c) :
    giniRankSum w = c * ((w.length : ℚ) * ((w.length : ℚ) + 1)) / 2 := by
  unfold giniRankSum
  have hstep : ∀ k ∈ Finset.range w.length,
      ((w.length : ℚ) + 1 - ((k : ℚ) + 1)) * w.getD k 0 =
        ((w.length : ℚ) - (k : ℚ)) * c := by
    intro k hk
    have hk2 : k < w.length := Finset.mem_range.mp hk
    rw [List.getD_eq_getElem w 0 hk2, h _ (List.getElem_mem hk2)]
    ring
  rw [Finset.sum_congr rfl hstep, ← Finset.sum_mul, sum_range_descending]
  ring
/-- C6 amended: for every nonempty vector all of whose elements equal one
strictly positive value, each of the five disparity indices returns 0. -/
theorem C6_equal_elements_all_indices_zero (l : List ℚ) (c : ℚ)
    (h1 : l ≠ []) (h2 : 0 < c) (h3 : ∀ x ∈ l, x = c) :
    computeDisparity "mean_abs_dev" l = .ok (.fin 0) ∧
    computeDisparity "relative_mean_abs_dev" l = .ok (.fin 0) ∧
    computeDisparity "gini_coefficient" l = .ok (.fin 0) ∧
    computeDisparity "lorenz_curve" l = .ok (.fin 0) ∧
    computeDisparity "theil_index" l = .ok (.fin 0) := by
  have hc : c ≠ 0 := ne_of_gt h2
  have hn : (l.length : ℚ) ≠ 0 := by
    simpa using fun h0 => h1 (List.length_eq_zero.mp h0)
  have hw : ∀ x ∈ pySort l, x = c := fun x hx => h3 x ((pySort_perm l).mem_iff.mp hx)
  have hwsum : (pySort l).sum = (l.length : ℚ) * c := by
    rw [pySort_sum, list_sum_const l c h3]
  have hwlen : ((pySort l).length : ℚ) = (l.length : ℚ) := by rw [pySort_length]
  have hSne : (pySort l).sum ≠ 0 := by rw [hwsum]; exact mul_ne_zero hn hc
  refine ⟨?_, ?_, ?_, ?_, ?_⟩
  · rw [computeDisparity_mad l h1, madQ_const l c h1 h3]
    norm_num
  · rw [computeDisparity_rmad l h1, madQ_const l c h1 h3, meanQ_const l c h1 h3]
    rw [pyDivQ, if_pos hc, zero_div]
    norm_num [PyRat.toPyFloat]
  · rw [computeDisparity_gini l h1]
    rw [pyDivQ, if_pos hSne]
    simp only [pyRsub, PyRat.toPyFloat]
    have hval : 1 + 1 / ((pySort l).length : ℚ) -
        2 / ((pySort l).length : ℚ) * giniRankSum (pySort l) / (pySort l).sum = 0 := by
      rw [giniRankSum_const (pySort l) c hw, hwsum, hwlen]
      field_simp
      ring
    rw [hval]
    norm_num
  · rw [computeDisparity_lorenz l]
    have hden : ((pySort l).length : ℚ) * (pySort l).sum ≠ 0 := by
      rw [hwlen, hwsum]
      exact mul_ne_zero hn (mul_ne_zero hn hc)
    rw [pyDivQ, if_pos hden]
    simp only [PyRat.toPyFloat]
    have hval : lorenzRankSum (pySort l) / (((pySort l).length : ℚ) * (pySort l).sum) = 0 := by
      rw [lorenzRankSum_eq, giniRankSum_const (pySort l) c hw, hwsum, hwlen]
      have hz : ((l.length : ℚ) + 1) * ((l.length : ℚ) * c) -
          2 * (c * ((l.length : ℚ) * ((l.length : ℚ) + 1)) / 2) = 0 := by ring
      rw [hz, zero_div]
    rw [hval]
    norm_num
  · rw [computeDisparity_theil l]
    have hz : theilIndex l = 0 := by
      rw [theilIndex]
      refine List.sum_eq_zero fun y hy => ?_
      rw [List.mem_map] at hy
      obtain ⟨z, hz1, hz2⟩ := hy
      rw [← hz2, h3 z hz1, meanQ_const l c h1 h3,
        div_self (show (c : ℝ) ≠ 0 from by exact_mod_cast hc), Real.log_one, mul_zero]
    rw [hz]
/-- C6 witness: the amended theorem applied at `l = [2, 2]`, `c = 2`. -/
theorem C6_equal_elements_all_indices_zero_witness :
    computeDisparity "mean_abs_dev" [2, 2] = .ok (.fin 0) ∧
    computeDisparity "relative_mean_abs_dev" [2, 2] = .ok (.fin 0) ∧
    computeDisparity "gini_coefficient" [2, 2] = .ok (.fin 0) ∧
    computeDisparity "lorenz_curve" [2, 2] = .ok (.fin 0) ∧
    computeDisparity "theil_index" [2, 2] = .ok (.fin 0) :=
  C6_equal_elements_all_indices_zero [2, 2] 2 (by simp) (by norm_num) (by decide)
/-- C6 counterexample to the claim as stated: the all-zero vector `[0, 0]`
is nonnegative with equal elements, yet the `gini_coefficient` branch
returns NaN (numpy 0/0), not 0; and on the empty vector the
`mean_abs_dev` branch returns NaN as well. -/
theorem C6_counterexample_zero_vector :
    computeDisparity "gini_coefficient" [0, 0] = Except.ok PyFloat.nan ∧
    (Except.ok PyFloat.nan ≠ (Except.ok (PyFloat.fin 0) : Except String PyFloat)) ∧
    computeDisparity "mean_abs_dev" ([] : List ℚ) = Except.ok PyFloat.nan := by
  refine ⟨?_, ?_, ?_⟩
  · rw [computeDisparity_gini [0, 0] (by simp)]
    rw [show pySort [0, 0] = [0, 0] from by decide]
    norm_num [pyDivQ, pyRsub, PyRat.toPyFloat, giniRankSum, Finset.sum_range_succ,
      List.sum_cons, List.sum_nil]
  · intro h
    injection h with h2
    exact PyFloat.noConfusion h2
  · rw [computeDisparity]
    simp
lemma list_abs_sum_pos (l : List ℚ) (x₀ : ℚ) (hx : x₀ ∈ l) (h0 : x₀ ≠ 0) :
    0 < (l.map fun x => |x|).sum := by
  induction l with
  | nil => cases hx
  | cons a t ih =>
    rw [List.map_cons, List.sum_cons]
    rcases List.mem_cons.mp hx with rfl | hmem
    · have ht : 0 ≤ (t.map fun x => |x|).sum := by
        apply List.sum_nonneg
        intro y hy
        obtain ⟨z, -, rfl⟩ := List.mem_map.mp hy
        exact abs_nonneg z
      have ha : 0 < |x₀| := abs_pos.mpr h0
      linarith
    · have ht : 0 < (t.map fun x => |x|).sum := ih hmem
      have ha : 0 ≤ |a| := abs_nonneg a
      linarith
/-- C7 amended: on every nonempty vector with mean 0 the
`relative_mean_abs_dev` branch does NOT fail — numpy divides by the zero
mean and the code returns NaN (all elements zero) or +Inf (otherwise). -/
theorem C7_rmad_zero_mean_not_an_error (l : List ℚ) (h1 : l ≠ []) (h2 : meanQ l = 0) :
    ((∀ x ∈ l, x = 0) → computeDisparity "relative_mean_abs_dev" l = .ok PyFloat.nan) ∧
    ((∃ x ∈ l, x ≠ 0) → computeDisparity "relative_mean_abs_dev" l = .ok PyFloat.inf) := by
  have hn : (0 : ℚ) < l.length := by
    have : l.length ≠ 0 := fun h0 => h1 (List.length_eq_zero.mp h0)
    exact_mod_cast Nat.pos_of_ne_zero this
  have habs : madQ l = (l.map fun x => |x|).sum / (l.length : ℚ) := by
    rw [madQ, meanQ, h2]
    simp only [sub_zero, List.length_map]
  constructor
  · intro hall
    rw [computeDisparity_rmad l h1, h2, madQ_const l 0 h1 hall]
    rw [pyDivQ]
    norm_num [PyRat.toPyFloat]
  · rintro ⟨x₀, hx₀, hx₀ne⟩
    have hpos : 0 < madQ l := by
      rw [habs]
      exact div_pos (list_abs_sum_pos l x₀ hx₀ hx₀ne) hn
    rw [computeDisparity_rmad l h1, h2, pyDivQ]
    rw [if_neg (by simp), if_neg (ne_of_gt hpos), if_pos hpos]
    norm_num [PyRat.toPyFloat]
/-- C7 witness: the amended theorem applied at `l = [1, -1]` (mean 0, a
nonzero element, result +Inf). -/
theorem C7_rmad_zero_mean_not_an_error_witness :
    ((∀ x ∈ ([1, -1] : List ℚ), x = 0) →
      computeDisparity "relative_mean_abs_dev" [1, -1] = .ok PyFloat.nan) ∧
    ((∃ x ∈ ([1, -1] : List ℚ), x ≠ 0) →
      computeDisparity "relative_mean_abs_dev" [1, -1] = .ok PyFloat.inf) :=
  C7_rmad_zero_mean_not_an_error [1, -1] (by simp)
    (by norm_num [meanQ, List.sum_cons, List.sum_nil])
lemma except_bind_ok {α β ε : Type} (a : α) (f : α → Except ε β) :
    (Except.ok a >>= f) = f a := rfl
lemma except_bind_err {α β ε : Type} (e : ε) (f : α → Except ε β) :
    ((Except.error e : Except ε α) >>= f) = Except.error e := rfl
/-- If a `compute_equity` branch succeeds, its inter-group component is the
disparity of the sum-over-sum group ratios of that branch's columns. -/
lemma equityBranch_inter (t : List Zone) (g disp : String)
    (ratioCol numCol denCol : Zone → ℚ) (r : PyFloat × List PyFloat)
    (h : equityBranch t g disp ratioCol numCol denCol = .ok r) :
    computeDisparity disp ((groupKeys t g).map (fun k =>
      ((groupZones t g k).map numCol).sum / ((groupZones t g k).map denCol).sum)) =
      .ok r.1 := by
  unfold equityBranch at h
  cases h1 : (groupKeys t g).mapM
      (fun k => computeDisparity disp ((groupZones t g k).map ratioCol)) with
  | error e =>
    rw [h1, except_bind_err] at h
    exact absurd h (by simp)
  | ok intra =>
    rw [h1, except_bind_ok] at h
    cases h2 : computeDisparity disp ((groupKeys t g).map (fun k =>
        ((groupZones t g k).map numCol).sum / ((groupZones t g k).map denCol).sum)) with
    | error e =>
      rw [h2, except_bind_err] at h
      exact absurd h (by simp)
    | ok inter =>
      rw [h2, except_bind_ok] at h
      have h3 : (inter, intra) = r := by
        have h4 : (Except.ok (inter, intra) : Except String (PyFloat × List PyFloat)) =
            .ok r := h
        injection h4
      rw [← h3]
/-- C7 counterexample to the claim as stated: at `v = [1, -1]` (mean 0)
the code returns `+Inf` — it does not fail with a division-by-zero
classification. -/
theorem C7_counterexample_returns_inf :
    computeDisparity "relative_mean_abs_dev" [1, -1] = Except.ok PyFloat.inf ∧
    ¬ ∃ e, computeDisparity "relative_mean_abs_dev" [1, -1] = Except.error e := by
  have h : computeDisparity "relative_mean_abs_dev" [1, -1] = Except.ok PyFloat.inf := by
    rw [computeDisparity_rmad [1, -1] (by simp)]
    norm_num [pyDivQ, madQ, meanQ, PyRat.toPyFloat, List.sum_cons, List.sum_nil]
  refine ⟨h, ?_⟩
  rintro ⟨e, he⟩
  rw [h] at he
  exact Except.noConfusion he
lemma c2_mad_10 : computeDisparity "mean_abs_dev" [1, 0] = .ok (.fin ((1 / 2 : ℚ) : ℝ)) := by
  rw [computeDisparity_mad _ (by simp)]
  norm_num [madQ, meanQ, List.sum_cons, List.sum_nil]
lemma c2_mad_half : computeDisparity "mean_abs_dev" [1 / 2, 1 / 2] =
    .ok (.fin ((0 : ℚ) : ℝ)) := by
  rw [computeDisparity_mad _ (by simp)]
  norm_num [madQ, meanQ, List.sum_cons, List.sum_nil]
lemma c2_mad_quarters : computeDisparity "mean_abs_dev" [1 / 4, 1 / 2] =
    .ok (.fin ((1 / 8 : ℚ) : ℝ)) := by
  rw [computeDisparity_mad _ (by simp)]
  norm_num [madQ, meanQ, List.sum_cons, List.sum_nil]
/-- C2: the Evaluator's inter-group disparity is computed over group
ratios formed as sum-of-numerators over sum-of-denominators, for every
table and every supported indicator; and on the asymmetric `c2Table` that
aggregation (inter disparity 1/8) differs from the mean-of-per-zone-ratios
aggregation (inter disparity 0). -/
theorem C2_inter_group_ratio_is_sum_over_sum :
    (∀ (t : List Zone) (ind grp disp : String) (r : PyFloat × List PyFloat),
        ind ∈ (["char_per_capita", "char_capacity_per_capita", "char_per_veh",
          "char_capacity_per_car", "char_per_VKT_out",
          "char_capacity_per_VKT_out"] : List String) →
        computeEquity t ind grp disp = Except.ok r →
        computeDisparity disp ((groupKeys t grp).map (fun k =>
          ((groupZones t grp k).map (indicatorNum ind)).sum /
            ((groupZones t grp k).map (indicatorDen ind)).sum)) = Except.ok r.1) ∧
    (∃ r, computeEquity c2Table "char_per_capita" "income_level" "mean_abs_dev" =
        Except.ok r ∧
      computeDisparity "mean_abs_dev"
        (interRatiosMeanOfZoneRatios c2Table "income_level" "char_per_capita") =
        Except.ok (PyFloat.fin 0) ∧
      r.1 = PyFloat.fin ((1 / 8 : ℚ) : ℝ) ∧ r.1 ≠ PyFloat.fin 0) := by
  constructor
  · intro t ind grp disp r hmem h
    simp only [List.mem_cons, List.not_mem_nil, or_false] at hmem
    rcases hmem with rfl | rfl | rfl | rfl | rfl | rfl <;>
      · rw [computeEquity] at h
        simp only [List.mem_cons, List.not_mem_nil, String.reduceEq, or_false, or_true,
          true_or, false_or, not_true_eq_false, not_false_eq_true, reduceIte, ite_false,
          ite_true] at h
        split_ifs at h with hg hd
        simpa [indicatorNum, indicatorDen] using
          equityBranch_inter _ _ _ _ _ _ _ h
  · have hg : groupKeys c2Table "income_level" = [1, 2] := by decide
    have hz1 : groupZones c2Table "income_level" 1 = [c2zone1, c2zone2] := by decide
    have hz2 : groupZones c2Table "income_level" 2 = [c2zone3, c2zone4] := by decide
    have hm1 : [c2zone1, c2zone2].map charPerCapita = [1, 0] := by
      norm_num [charPerCapita, totalCharNum, c2zone1, c2zone2]
    have hm2 : [c2zone3, c2zone4].map charPerCapita = [1 / 2, 1 / 2] := by
      norm_num [charPerCapita, totalCharNum, c2zone3, c2zone4]
    have hsum1 : ([c2zone1, c2zone2].map totalCharNum).sum /
        ([c2zone1, c2zone2].map (fun z => z.popu)).sum = (1 / 4 : ℚ) := by
      norm_num [totalCharNum, c2zone1, c2zone2, List.sum_cons, List.sum_nil]
    have hsum2 : ([c2zone3, c2zone4].map totalCharNum).sum /
        ([c2zone3, c2zone4].map (fun z => z.popu)).sum = (1 / 2 : ℚ) := by
      norm_num [totalCharNum, c2zone3, c2zone4, List.sum_cons, List.sum_nil]
    have hbranch : computeEquity c2Table "char_per_capita" "income_level" "mean_abs_dev" =
        equityBranch c2Table "income_level" "mean_abs_dev" charPerCapita totalCharNum
          (fun z => z.popu) := by
      rw [computeEquity]
      simp
    have hEval : computeEquity c2Table "char_per_capita" "income_level" "mean_abs_dev" =
        Except.ok (PyFloat.fin ((1 / 8 : ℚ) : ℝ),
          [PyFloat.fin ((1 / 2 : ℚ) : ℝ), PyFloat.fin ((0 : ℚ) : ℝ)]) := by
      rw [hbranch]
      unfold equityBranch
      rw [hg]
      simp only [List.mapM_cons, List.mapM_nil, List.map_cons, List.map_nil]
      rw [hz1, hz2, hm1, hm2, c2_mad_10, c2_mad_half]
      simp only [except_bind_ok, pure]
      rw [hsum1, hsum2, c2_mad_quarters]
      rfl
    refine ⟨(PyFloat.fin ((1 / 8 : ℚ) : ℝ),
        [PyFloat.fin ((1 / 2 : ℚ) : ℝ), PyFloat.fin ((0 : ℚ) : ℝ)]), hEval, ?_, rfl, ?_⟩
    · have hmean : interRatiosMeanOfZoneRatios c2Table "income_level" "char_per_capita" =
          [1 / 2, 1 / 2] := by
        rw [interRatiosMeanOfZoneRatios, hg]
        simp only [List.map_cons, List.map_nil]
        rw [hz1, hz2]
        norm_num [indicatorZoneRatio, charPerCapita, totalCharNum, meanQ,
          c2zone1, c2zone2, c2zone3, c2zone4, List.sum_cons, List.sum_nil]
      rw [hmean, c2_mad_half]
      norm_num
    · intro hcontr
      injection hcontr with h2
      norm_num at h2
/-- C3: with `exclusivity_factor = 0` and column-consistent positive work
populations, the workplace redistribution conserves the total added
capacity for every decision vector `x`. -/
theorem C3_redistribution_conserves_total (n : ℕ) (totalCap workPopu : Fin n → ℚ)
    (flow : Fin n → Fin n → ℚ) (x : Fin n → ℚ)
    (hw : ∀ j, workPopu j = ∑ i, flow i j) (hpos : ∀ j, 0 < workPopu j) :
    ∑ i, (charEqExpr n totalCap flow workPopu 0 x i - totalCap i) = ∑ j, x j := by
  unfold charEqExpr
  simp only [sub_zero, mul_one, add_sub_cancel_left]
  rw [Finset.sum_comm]
  refine Finset.sum_congr rfl fun j _ => ?_
  calc ∑ i, x j * flow i j / workPopu j
      = (x j / workPopu j) * ∑ i, flow i j := by
        rw [Finset.mul_sum]
        exact Finset.sum_congr rfl fun i _ => by ring
    _ = (x j / workPopu j) * workPopu j := by rw [← hw j]
    _ = x j := div_mul_cancel₀ (x j) (ne_of_gt (hpos j))
/-- C3 witness: one zone, `totalCap = 5`, `flow = 2`, `work_popu = 2`,
`x = 3`: the equivalent capacity gains exactly 3. -/
theorem C3_redistribution_conserves_total_witness :
    ∑ i : Fin 1, (charEqExpr 1 (fun _ => 5) (fun _ _ => 2) (fun _ => 2) 0 (fun _ => 3) i - 5) =
      ∑ _j : Fin 1, (3 : ℚ) :=
  C3_redistribution_conserves_total 1 (fun _ => 5) (fun _ => 2) (fun _ _ => 2) (fun _ => 3)
    (fun j => by simp [Fin.sum_univ_one]) (fun j => by norm_num)
/-- C4: every feasible solution satisfies the per-zone cap and the total
cap, both given by the same numeric value `maxAdd`. -/
theorem C4_budget_caps (n : ℕ) (data : Fin n → Zone) (flow : Fin n → Fin n → ℚ)
    (ef maxAdd : ℚ) (ind : String) (s : OptSolution n)
    (h : Feasible n data flow ef maxAdd ind s) :
    (∀ i, s.x i ≤ maxAdd) ∧ (∑ i, s.x i) ≤ maxAdd :=
  ⟨h.2.2.2.1, h.2.2.2.2.1⟩
/-- C4 witness: a concrete feasible point (one zone, zero allocation,
budget 5) for which both caps hold. -/
theorem C4_budget_caps_witness :
    (∀ i, (OptSolution.mk (fun _ => 0) (fun _ => 0) (fun _ => 0) : OptSolution 1).x i ≤ 5) ∧
      (∑ i, (OptSolution.mk (fun _ => 0) (fun _ => 0) (fun _ => 0) : OptSolution 1).x i) ≤ 5 :=
  C4_budget_caps 1 (fun _ => c2zone1) (fun _ _ => 1) 0 5 "char_capacity_per_capita"
    (OptSolution.mk (fun _ => 0) (fun _ => 0) (fun _ => 0))
    (by
      refine ⟨fun i => le_refl 0, fun i => le_refl 0, fun i => le_refl 0,
        fun i => by norm_num, by simp, fun i => ?_, ?_⟩
      · norm_num [charEqExpr, totalCharCapacity, c2zone1, Fin.sum_univ_one]
      · rw [xiConstraint]
        norm_num [c2zone1])
/-- C5 (code evaluated at the failing input): when the solver status is
INFEASIBLE, `solve` does compute and persist the IIS report and does
return the `None` sentinel — but `optimization`'s tuple unpacking of that
sentinel raises `TypeError`, so no "no solution" result reaches
`optimization`'s caller without an exception. -/
theorem C5_infeasible_unpacking_raises :
    (solveReturn GrbStatus.infeasible ((0 : ℚ), (0 : ℚ))).1 = true ∧
    (solveReturn GrbStatus.infeasible ((0 : ℚ), (0 : ℚ))).2 = none ∧
    optimizationUnpack (solveReturn GrbStatus.infeasible ((0 : ℚ), (0 : ℚ))).2 =
      .error "TypeError: cannot unpack non-iterable NoneType object" ∧
    (∀ st : GrbStatus, st ≠ GrbStatus.infeasible →
      optimizationUnpack (solveReturn st ((0 : ℚ), (0 : ℚ))).2 = .ok ((0 : ℚ), (0 : ℚ))) := by
  refine ⟨rfl, rfl, rfl, ?_⟩
  intro st hst
  cases st with
  | optimal => rfl
  | infeasible => exact absurd rfl hst
  | timeLimit => rfl
lemma computeXiValTrace_ok (n : ℕ) (ind : String) (m : GrbModel)
    (h : ind = "char_capacity_per_capita" ∨ ind = "char_capacity_per_car" ∨
      ind = "char_capacity_per_VKT_out") :
    computeXiValTrace n ind m = .ok (m.addConstrs n) := by
  rw [computeXiValTrace, if_pos h]
lemma computeGroupValTrace_ok (nGroup : ℕ) (grp ind : String) (m : GrbModel)
    (hg : grp ∈ (["income_level", "mud_level", "employment_level",
      "major_ethnicity"] : List String))
    (h : ind = "char_capacity_per_capita" ∨ ind = "char_capacity_per_car" ∨
      ind = "char_capacity_per_VKT_out") :
    computeGroupValTrace nGroup grp ind m = .ok ((m.addVars nGroup).addConstrs nGroup) := by
  rw [computeGroupValTrace, if_pos hg, if_pos h]
lemma disparityFnTrace_ok (len : ℕ) (disp : String) (m : GrbModel)
    (h : disp ∈ (["var", "coeff_of_var", "mean_abs_dev", "relative_mean_abs_dev",
      "gini_coefficient"] : List String)) :
    ∃ m2, disparityFnTrace len disp m = .ok m2 ∧
      m.nVars ≤ m2.nVars ∧ m.nConstrs ≤ m2.nConstrs := by
  simp only [List.mem_cons, List.not_mem_nil, or_false] at h
  rcases h with rfl | rfl | rfl | rfl | rfl
  · exact ⟨m, by simp [disparityFnTrace], le_refl _, le_refl _⟩
  · exact ⟨(m.addVars 3).addConstrs 3, by simp [disparityFnTrace],
      Nat.le_add_right _ 3, Nat.le_add_right _ 3⟩
  · exact ⟨(m.addVars len).addConstrs (2 * len), by simp [disparityFnTrace],
      Nat.le_add_right _ len, Nat.le_add_right _ (2 * len)⟩
  · exact ⟨(m.addVars (len + 2)).addConstrs (2 * len + 2), by simp [disparityFnTrace],
      Nat.le_add_right _ (len + 2), Nat.le_add_right _ (2 * len + 2)⟩
  · exact ⟨(m.addVars (len * len + 1)).addConstrs (2 * len * len + 1),
      by simp [disparityFnTrace], Nat.le_add_right _ (len * len + 1),
      Nat.le_add_right _ (2 * len * len + 1)⟩
lemma withinFold_ok (disp : String)
    (hd : disp ∈ (["var", "coeff_of_var", "mean_abs_dev", "relative_mean_abs_dev",
      "gini_coefficient"] : List String))
    (sizes : List ℕ) (m : GrbModel) :
    ∃ m2, (sizes.foldlM
        (fun mm s => (disparityFnTrace s disp mm) >>= fun m3 => pure (m3.addConstrs 1))
        m : Except (GrbModel × PyErr) GrbModel) = .ok m2 ∧
      m.nVars ≤ m2.nVars ∧ m.nConstrs ≤ m2.nConstrs := by
  induction sizes generalizing m with
  | nil => exact ⟨m, rfl, le_refl _, le_refl _⟩
  | cons s rest ih =>
    obtain ⟨m3, h3, hv3, hc3⟩ := disparityFnTrace_ok s disp m hd
    obtain ⟨m4, h4, hv4, hc4⟩ := ih (m3.addConstrs 1)
    refine ⟨m4, ?_, le_trans hv3 hv4,
      le_trans hc3 (le_trans (Nat.le_add_right _ 1) hc4)⟩
    rw [List.foldlM_cons]
    simp only [h3, except_bind_ok, pure_bind]
    exact h4
lemma withinDisparityTrace_ok (grp disp : String)
    (hg : grp ∈ (["income_level", "mud_level", "employment_level",
      "major_ethnicity"] : List String))
    (hd : disp ∈ (["var", "coeff_of_var", "mean_abs_dev", "relative_mean_abs_dev",
      "gini_coefficient"] : List String))
    (sizes : List ℕ) (m : GrbModel) :
    ∃ m2, withinDisparityTrace grp disp sizes m = .ok m2 ∧
      m.nVars ≤ m2.nVars ∧ m.nConstrs ≤ m2.nConstrs := by
  obtain ⟨m2, h2, hv, hc⟩ := withinFold_ok disp hd sizes (m.addVars sizes.length)
  refine ⟨m2, ?_, le_trans (Nat.le_add_right _ _) hv, hc⟩
  rw [withinDisparityTrace, if_pos hg]
  exact h2
lemma getEquityObjectiveTrace_err (nGroup : ℕ) (sizes : List ℕ) (grp disp : String)
    (flag : Bool) (w : ℚ) (m : GrbModel)
    (hg : grp ∈ (["income_level", "mud_level", "employment_level",
      "major_ethnicity"] : List String))
    (hd : disp ∈ (["var", "coeff_of_var", "mean_abs_dev", "relative_mean_abs_dev",
      "gini_coefficient"] : List String))
    (hw : ¬(flag = true ∧ 0 ≤ w ∧ w ≤ 1)) :
    ∃ mf, getEquityObjectiveTrace nGroup sizes grp disp flag w m =
        .error (mf, .assertionError) ∧
      m.nVars ≤ mf.nVars ∧ m.nConstrs ≤ mf.nConstrs := by
  obtain ⟨m1, h1, hv1, hc1⟩ := disparityFnTrace_ok nGroup disp (m.addVars 2) hd
  obtain ⟨m3, h3, hv3, hc3⟩ := withinDisparityTrace_ok grp disp hg hd sizes (m1.addConstrs 1)
  refine ⟨m3.addConstrs 1, ?_, ?_, ?_⟩
  · rw [getEquityObjectiveTrace, h1, except_bind_ok, h3, except_bind_ok, if_neg hw]
  · exact le_trans (Nat.le_add_right _ 2) (le_trans hv1 hv3)
  · exact le_trans hc1 (le_trans (Nat.le_add_right _ 1)
      (le_trans hc3 (Nat.le_add_right _ 1)))
lemma initialModelTrace_nVars (n : ℕ) : (initialModelTrace n).nVars = 3 * n := by
  simp [initialModelTrace, GrbModel.addVars, GrbModel.addConstrs]
  omega
lemma initialModelTrace_nConstrs (n : ℕ) : (initialModelTrace n).nConstrs = 2 * n + 1 := by
  simp [initialModelTrace, GrbModel.addVars, GrbModel.addConstrs]
  omega
/-- C8 amended: an out-of-range (or non-float) between-group weight makes
the builder fail with an AssertionError, but only AFTER the model has been
constructed — at the failure the 3n decision variables and the 2n+1
capacity constraints (and more) have already been created; the validation
is the last step of objective construction, not a precondition of model
construction. -/
theorem C8_weight_checked_after_model_construction (n : ℕ) (data : Fin n → Zone)
    (ind grp disp : String) (flag : Bool) (w : ℚ)
    (hind : ind ∈ (["char_capacity_per_capita", "char_capacity_per_car",
      "char_capacity_per_VKT_out"] : List String))
    (hgrp : grp ∈ (["income_level", "mud_level", "employment_level",
      "major_ethnicity"] : List String))
    (hdisp : disp ∈ (["var", "coeff_of_var", "mean_abs_dev", "relative_mean_abs_dev",
      "gini_coefficient"] : List String))
    (hw : ¬(flag = true ∧ 0 ≤ w ∧ w ≤ 1)) :
    ∃ mf : GrbModel, buildOptimization n data ind grp disp flag w =
        .error (mf, PyErr.assertionError) ∧
      3 * n ≤ mf.nVars ∧ 2 * n + 1 ≤ mf.nConstrs := by
  have hcond : ind = "char_capacity_per_capita" ∨ ind = "char_capacity_per_car" ∨
      ind = "char_capacity_per_VKT_out" := by simpa using hind
  obtain ⟨mf, hE, hv, hc⟩ := getEquityObjectiveTrace_err
    (uniqueLabels n data grp).length (groupSizes n data grp) grp disp flag w
    ((((initialModelTrace n).addConstrs n).addVars
      (uniqueLabels n data grp).length).addConstrs (uniqueLabels n data grp).length)
    hgrp hdisp hw
  refine ⟨mf, ?_, ?_, ?_⟩
  · rw [buildOptimization, computeXiValTrace_ok n ind _ hcond, except_bind_ok,
      computeGroupValTrace_ok _ grp ind _ hgrp hcond, except_bind_ok, hE]
  · refine le_trans ?_ hv
    simp [initialModelTrace, GrbModel.addVars, GrbModel.addConstrs]
    omega
  · refine le_trans ?_ hc
    simp [initialModelTrace, GrbModel.addVars, GrbModel.addConstrs]
    omega
/-- C8 witness: one zone, valid indicator, group and disparity index,
weight 2 (a float, out of range): the build fails with AssertionError with
9 variables and 12 constraints already in the model. -/
theorem C8_weight_checked_after_model_construction_witness :
    ∃ mf : GrbModel, buildOptimization 1 (fun _ => c2zone1) "char_capacity_per_capita"
        "income_level" "mean_abs_dev" true 2 = .error (mf, PyErr.assertionError) ∧
      3 * 1 ≤ mf.nVars ∧ 2 * 1 + 1 ≤ mf.nConstrs :=
  C8_weight_checked_after_model_construction 1 (fun _ => c2zone1)
    "char_capacity_per_capita" "income_level" "mean_abs_dev" true 2
    (by decide) (by decide) (by decide)
    (by
      rintro ⟨-, -, hle⟩
      norm_num at hle)
/-- C8 counterexample to the claim as stated: with a weight of 2 the
build fails with an AssertionError (not before model construction but
after it) — at the moment the failure surfaces the model already holds 9
variables and 12 constraints. -/
theorem C8_counterexample_model_built_before_failure :
    buildOptimization 1 (fun _ => c2zone1) "char_capacity_per_capita" "income_level"
        "mean_abs_dev" true 2 =
      .error (GrbModel.mk 9 12, PyErr.assertionError) ∧
    GrbModel.nVars (GrbModel.mk 9 12) ≠ 0 ∧ GrbModel.nConstrs (GrbModel.mk 9 12) ≠ 0 := by
  refine ⟨?_, by decide, by decide⟩
  rw [show buildOptimization 1 (fun _ => c2zone1) "char_capacity_per_capita" "income_level"
      "mean_abs_dev" true 2 =
    getEquityObjectiveTrace 1 [1] "income_level" "mean_abs_dev" true 2
      (GrbModel.mk 4 5) from ?_]
  · rw [getEquityObjectiveTrace,
      show disparityFnTrace 1 "mean_abs_dev" ((GrbModel.mk 4 5).addVars 2) =
        .ok (GrbModel.mk 7 7) from by simp [disparityFnTrace, GrbModel.addVars,
          GrbModel.addConstrs], except_bind_ok,
      show withinDisparityTrace "income_level" "mean_abs_dev" [1]
          ((GrbModel.mk 7 7).addConstrs 1) = .ok (GrbModel.mk 9 11) from by
        simp [withinDisparityTrace, disparityFnTrace, GrbModel.addVars,
          GrbModel.addConstrs, List.foldlM, except_bind_ok], except_bind_ok,
      if_neg (by rintro ⟨-, -, hle⟩; norm_num at hle)]
    rfl
  · rw [buildOptimization,
      show uniqueLabels 1 (fun _ => c2zone1) "income_level" = [1] from by decide,
      show groupSizes 1 (fun _ => c2zone1) "income_level" = [1] from by decide,
      computeXiValTrace_ok 1 _ _ (by decide), except_bind_ok,
      computeGroupValTrace_ok _ _ _ _ (by decide) (by decide), except_bind_ok]
    rfl
/-- C9: the Evaluator called with `demographic_group = "invalid"` raises
ValueError("Invalid demongraphic group") whatever the other arguments;
and the Model Builder called with `disparity_index = "lorenz_curve"`
(valid indicator and group) raises ValueError("Invalid method") from
`disparity_fn` — neither falls back to a silent default.  The third
conjunct instantiates the builder part concretely. -/
theorem C9_invalid_arguments_rejected :
    (∀ (t : List Zone) (ind disp : String),
        computeEquity t ind "invalid" disp =
          Except.error "Invalid demongraphic group") ∧
    (∀ (n : ℕ) (data : Fin n → Zone) (ind grp : String) (flag : Bool) (w : ℚ),
        ind ∈ (["char_capacity_per_capita", "char_capacity_per_car",
          "char_capacity_per_VKT_out"] : List String) →
        grp ∈ (["income_level", "mud_level", "employment_level",
          "major_ethnicity"] : List String) →
        ∃ mf, buildOptimization n data ind grp "lorenz_curve" flag w =
          Except.error (mf, PyErr.valueError "Invalid method")) ∧
    (∃ mf, buildOptimization 1 (fun _ => c2zone1) "char_capacity_per_capita"
        "income_level" "lorenz_curve" true (1 / 2) =
      Except.error (mf, PyErr.valueError "Invalid method")) := by
  have hbuilder : ∀ (n : ℕ) (data : Fin n → Zone) (ind grp : String) (flag : Bool) (w : ℚ),
      ind ∈ (["char_capacity_per_capita", "char_capacity_per_car",
        "char_capacity_per_VKT_out"] : List String) →
      grp ∈ (["income_level", "mud_level", "employment_level",
        "major_ethnicity"] : List String) →
      ∃ mf, buildOptimization n data ind grp "lorenz_curve" flag w =
        Except.error (mf, PyErr.valueError "Invalid method") := by
    intro n data ind grp flag w hind hgrp
    have hcond : ind = "char_capacity_per_capita" ∨ ind = "char_capacity_per_car" ∨
        ind = "char_capacity_per_VKT_out" := by simpa using hind
    refine ⟨(((((initialModelTrace n).addConstrs n).addVars
      (uniqueLabels n data grp).length).addConstrs
        (uniqueLabels n data grp).length).addVars 2), ?_⟩
    rw [buildOptimization, computeXiValTrace_ok n ind _ hcond, except_bind_ok,
      computeGroupValTrace_ok _ grp ind _ hgrp hcond, except_bind_ok,
      getEquityObjectiveTrace,
      show ∀ m : GrbModel, disparityFnTrace (uniqueLabels n data grp).length
          "lorenz_curve" m = .error (m, PyErr.valueError "Invalid method") from
        fun m => by simp [disparityFnTrace],
      except_bind_err]
  refine ⟨fun t ind disp => by simp [computeEquity], hbuilder, ?_⟩
  exact hbuilder 1 (fun _ => c2zone1) "char_capacity_per_capita" "income_level"
    true (1 / 2) (by decide) (by decide)
